import Mathlib

/-!
Shallow embedding of the scheduled-task reconciliation engine of
`src/api/tacticalrmm/core/tasks.py` (the celery task `sync_scheduled_tasks`
with its inner coroutines `_handle_task_on_agent` and `_run`), together with
theorems checking the specification claims against it.

External collaborators (Django ORM models, the `packaging.version` parser,
the NATS transport, the redis lock) are modelled explicitly; every model of
code that is not in `src/` carries a doc comment saying what it stands for.
-/

namespace TRMM

/-- Sync status enum `TaskSyncStatus` from `tacticalrmm/constants.py`
(values INITIAL, SYNCED, NOT_SYNCED, PENDING_DELETION; the spec data model
section lists these four states). -/
inductive TaskSyncStatus
  | initial
  | synced
  | notSynced
  | pendingDeletion
deriving DecidableEq, Repr

/-- Task type: the spec data model distinguishes ordinary tasks from
onboarding tasks (`TaskType.ONBOARDING` in `tacticalrmm/constants.py`);
only that distinction is read by `sync_scheduled_tasks`. -/
inductive TaskType
  | ordinary
  | onboarding
deriving DecidableEq, Repr

/-- Agent online/overdue/offline status (the code compares
`agent.status == AGENT_STATUS_ONLINE`). -/
inductive AgentStatus
  | online
  | overdue
  | offline
deriving DecidableEq, Repr

/-- Agent record, read-only to the reconciliation engine: identifier,
hostname, semantic version string, status, POSIX flag. -/
structure Agent where
  agent_id : String
  hostname : String
  version : String
  status : AgentStatus
  is_posix : Bool
deriving DecidableEq, Repr

/-- AutomatedTask record as read by the engine: id, human name, task type,
OS-native task name (`win_task_name`), and the serializable trigger/action
payload of the data-model section, from which the remote descriptor is
generated. -/
structure AutomatedTask where
  id : Nat
  name : String
  task_type : TaskType
  win_task_name : String
  payloadDef : String
deriving DecidableEq, Repr

/-- Modelled from the spec: `AutomatedTask.generate_nats_task_payload`
(defined in `autotasks/models.py`, not in `src/`) is "a pure function of
the Task's current definition"; we model the descriptor it produces as the
serializable trigger/action payload of the task. -/
def AutomatedTask.generate_nats_task_payload (t : AutomatedTask) : String :=
  t.payloadDef

/-- TaskResult row: the join entity for one (agent, task) pair carrying the
sync status. -/
structure TaskResult where
  agent_id : String
  task_id : Nat
  sync_status : TaskSyncStatus
deriving DecidableEq, Repr

/-- The value of `task.task_result` as seen by the planner: Python `None`,
the empty dict (the code comment says policy tasks are an empty dict on
initial, hence the `isinstance` guards), or an actual TaskResult row. -/
inductive TaskResultField
  | noneF
  | emptyDict
  | val (tr : TaskResult)
deriving DecidableEq, Repr

/-- Python truthiness of `task.task_result`: `None` and `{}` are falsy, a
TaskResult instance is truthy. -/
def TaskResultField.truthy : TaskResultField → Bool
  | .noneF => false
  | .emptyDict => false
  | .val _ => true

/-- The test `isinstance(task.task_result, TaskResult)`. -/
def TaskResultField.isTR : TaskResultField → Bool
  | .val _ => true
  | _ => false

/-- The test `isinstance(task.task_result, TaskResult) and
task.task_result.sync_status == s`. -/
def TaskResultField.hasStatus : TaskResultField → TaskSyncStatus → Bool
  | .val tr, s => decide (tr.sync_status = s)
  | _, _ => false

/-! ## Version comparison (`packaging.version`, external library) -/

/-- Componentwise comparison of numeric release tuples, shorter tuple padded
with zeros; this is the order `packaging.version` gives release-only
versions. -/
def verCmp : List Nat → List Nat → Ordering
  | [], bs => if bs.all (fun b => b = 0) then Ordering.eq else Ordering.lt
  | a :: as, [] =>
    if ((a :: as).all (fun x => x = 0)) then Ordering.eq else Ordering.gt
  | a :: as, b :: bs =>
    if a < b then Ordering.lt
    else if b < a then Ordering.gt
    else verCmp as bs

/-- Split a character list at the dots. -/
def splitDots : List Char → List (List Char)
  | [] => [[]]
  | c :: rest =>
    if c = '.' then [] :: splitDots rest
    else
      match splitDots rest with
      | [] => [[c]]
      | p :: ps => (c :: p) :: ps

/-- Decimal value of one dotted component. -/
def parsePart (cs : List Char) : Nat :=
  cs.foldl (fun n c => n * 10 + (c.toNat - 48)) 0

/-- Modelled from the spec: `pyver.parse` (the external `packaging.version`
parser) applied to a plain numeric version string yields its release tuple;
the spec requires "semantic version comparison, not lexical". -/
def pyverParse (s : String) : List Nat :=
  (splitDots s.data).map parsePart

/-- Lexicographic character-by-character string order: the "lexical"
comparison the spec contrasts the semantic version comparison with. -/
def lexLt : List Char → List Char → Bool
  | [], [] => false
  | [], _ :: _ => true
  | _ :: _, [] => false
  | a :: as, b :: bs =>
    if a.toNat < b.toNat then true
    else if b.toNat < a.toNat then false
    else lexLt as bs

/-- Lexical order on version strings. -/
def strLexLt (a b : String) : Bool :=
  lexLt a.data b.data

/-- The comparison `pyver.parse a >= pyver.parse b`. -/
def pyverGE (a b : String) : Bool :=
  decide (verCmp (pyverParse a) (pyverParse b) ≠ Ordering.lt)

/-- The comparison `pyver.parse a < pyver.parse b`. -/
def pyverLT (a b : String) : Bool :=
  decide (verCmp (pyverParse a) (pyverParse b) = Ordering.lt)

/-! ## Diff planner (`sync_scheduled_tasks`, planning loop) -/

/-- One entry of the `actions` list built by the planning loop: the tuple
`(action, task.id, agent object, nats task payload, agent_id, hostname)`.
The agent object is represented by its id; the payload entry is the
generated descriptor for create/modify and `none` (the empty dict `{}`)
for delete. -/
structure DispatchItem where
  action : String
  task_id : Nat
  agent_obj : String
  payload : Option String
  agent_id : String
  hostname : String
deriving DecidableEq, Repr

/-- One element of `agent.get_tasks_with_policies()` as read by the planning
loop: the task definition at planning time, the truthiness of `task.policy`,
the id of `task.agent`, and the prefetched `task.task_result`. The method
itself lives in `agents/models.py` (not in `src/`); the spec says it
enumerates the agent tasks including tasks inherited from an assigned
policy. -/
structure TaskWithPolicy where
  task : AutomatedTask
  policy : Bool
  task_agent_id : String
  task_result : TaskResultField
deriving DecidableEq, Repr

/-- Loop body of the planner for a single task of an eligible agent
(lines 185-238 of `core/tasks.py`): skip onboarding tasks on agents below
2.6.0, then classify by the sync status of `task.task_result` into zero or
one dispatch items. -/
def action_for_task (agent : Agent) (t : TaskWithPolicy) : List DispatchItem :=
  let agent_obj : String := if t.policy then agent.agent_id else t.task_agent_id
  if t.task.task_type = TaskType.onboarding ∧ pyverLT agent.version "2.6.0" = true then
    []
  else if t.task_result.truthy = false ∨ t.task_result.hasStatus TaskSyncStatus.initial = true then
    [⟨"create", t.task.id, agent_obj, some t.task.generate_nats_task_payload,
      agent.agent_id, agent.hostname⟩]
  else if t.task_result.hasStatus TaskSyncStatus.pendingDeletion = true then
    [⟨"delete", t.task.id, agent_obj, none, agent.agent_id, agent.hostname⟩]
  else if t.task_result.hasStatus TaskSyncStatus.notSynced = true then
    [⟨"modify", t.task.id, agent_obj, some t.task.generate_nats_task_payload,
      agent.agent_id, agent.hostname⟩]
  else
    []

/-- An agent as seen by the planner, together with the result of
`agent.get_tasks_with_policies()`. -/
structure AgentView where
  agent : Agent
  tasks_with_policies : List TaskWithPolicy
deriving DecidableEq, Repr

/-- Agent eligibility filter of the planning loop (lines 179-183):
`not agent.is_posix and pyver.parse(agent.version) >= pyver.parse("1.6.0")
and agent.status == AGENT_STATUS_ONLINE`. -/
def agentEligible (agent : Agent) : Bool :=
  agent.is_posix = false ∧ pyverGE agent.version "1.6.0" = true ∧
    agent.status = AgentStatus.online

/-- The full `actions` list built by the planning loop over the agent
queryset. -/
def sync_plan (fleet : List AgentView) : List DispatchItem :=
  fleet.flatMap fun av =>
    if agentEligible av.agent = true then
      av.tasks_with_policies.flatMap (action_for_task av.agent)
    else
      []

/-! ## State store and transport -/

/-- Modelled from the spec: the persistent State Store holding AutomatedTask
rows, TaskResult rows and Agent rows (the Django database behind the ORM
calls `aget`, `acreate`, `asave`, `adelete`; the models live outside
`src/`). -/
structure Store where
  tasks : List AutomatedTask
  taskresults : List TaskResult
  agents : List Agent
deriving DecidableEq, Repr

/-- Lookup of `TaskResult.objects.aget(agent=agent, task=task)`. -/
def findTR (trs : List TaskResult) (aid : String) (tid : Nat) : Option TaskResult :=
  trs.find? fun tr => tr.agent_id = aid ∧ tr.task_id = tid

/-- Modelled from the spec: the fetch-or-create of step 1 of the Dispatcher
contract (`aget` with `acreate` on `DoesNotExist`); a freshly created
TaskResult carries the default status INITIAL (the spec treats absence of a
row as status INITIAL). Returns the store and the row the handler works
with. -/
def ensureTaskResult (st : Store) (aid : String) (tid : Nat) : Store × TaskResult :=
  match findTR st.taskresults aid tid with
  | some tr => (st, tr)
  | none =>
    let tr : TaskResult := ⟨aid, tid, TaskSyncStatus.initial⟩
    ({ st with taskresults := st.taskresults ++ [tr] }, tr)

/-- The write `task_result.asave(update_fields=["sync_status"])`: only the
sync_status column of the matching TaskResult rows is updated. -/
def saveSyncStatus (st : Store) (aid : String) (tid : Nat) (s : TaskSyncStatus) : Store :=
  { st with
    taskresults := st.taskresults.map fun tr =>
      if tr.agent_id = aid ∧ tr.task_id = tid then { tr with sync_status := s } else tr }

/-- Modelled from the spec: `task.adelete()` removes the Task definition,
and with it the TaskResult rows of that task (the spec delete outcome is
"delete the TaskResult and delete the Task definition itself"; the cascade
lives in the model definitions outside `src/`). -/
def deleteTask (st : Store) (tid : Nat) : Store :=
  { st with
    tasks := st.tasks.filter fun t => t.id ≠ tid,
    taskresults := st.taskresults.filter fun tr => tr.task_id ≠ tid }

/-- Python substring test `needle in hay` on the character lists. -/
def charsContain (needle : List Char) : List Char → Bool
  | [] => needle.isEmpty
  | c :: rest => List.isPrefixOf needle (c :: rest) || charsContain needle rest

/-- Python `needle in hay` on strings. -/
def pyIn (needle hay : String) : Bool :=
  charsContain needle.data hay.data

/-- The `schedtaskpayload` field of the NATS message: the raw planner
payload for `schedtask`, the dict `{"name": win_task_name}` for
`delschedtask`. -/
inductive SchedPayload
  | descriptor (p : Option String)
  | nameOnly (name : String)
deriving DecidableEq, Repr

/-- One NATS request message `{"func": ..., "schedtaskpayload": ...}`. -/
structure NatsMsg where
  func : String
  schedtaskpayload : SchedPayload
deriving DecidableEq, Repr

/-- One remote call issued through `a_nats_cmd`: subject, message, timeout
(always 10). -/
structure SentMsg where
  sub : String
  msg : NatsMsg
  timeout : Nat
deriving DecidableEq, Repr

/-- Log levels used by the handler and the driver. -/
inductive LogLevel
  | debug
  | info
  | error
deriving DecidableEq, Repr

/-- One logger entry. -/
structure LogEntry where
  level : LogLevel
  text : String
deriving DecidableEq, Repr

/-- Rendering of the tuple payload inside the `logger.debug(payload)`
line: the descriptor itself, or the empty dict for delete items. -/
def payloadText : Option String → String
  | some p => p
  | none => "\x7b\x7d"

/-- Exceptions that can escape `_handle_task_on_agent`: a failing
`AutomatedTask.objects.aget` (DoesNotExist), or a DatabaseError from an
unsuppressed `asave`. -/
inductive DispatchErr
  | taskDoesNotExist
  | databaseError
deriving DecidableEq, Repr

/-- Observable outcome of running one handler (or a sequence of them):
resulting store, remote calls issued, log lines, and the exception that
escaped, if any. -/
structure HandlerResult where
  store : Store
  sent : List SentMsg
  logs : List LogEntry
  err : Option DispatchErr
deriving Repr

/-! ## Dispatcher (`_handle_task_on_agent`) -/

/-- Body of the coroutine `_handle_task_on_agent` (lines 240-301) after the
`AutomatedTask` fetch: ensure a TaskResult exists, then run the
create/modify or delete branch for the fetched task. `remote` is the
transport: modelled from the spec, `a_nats_cmd` (in `tacticalrmm/nats_utils.py`,
not in `src/`) issues the request on the given subject with timeout 10 and
returns the response string, a timed-out call being a failure represented by
a response other than "ok". `saveFails` says whether the single
`task_result.asave(update_fields=["sync_status"])` call of this item raises
a DatabaseError; the other ORM writes are modelled as succeeding. -/
def handle_task_body (remote : String → NatsMsg → String) (saveFails : Bool)
    (st : Store) (item : DispatchItem) (task : AutomatedTask) : HandlerResult :=
  let st1 := (ensureTaskResult st item.agent_obj item.task_id).1
    if item.action = "create" ∨ item.action = "modify" then
      let nats_data : NatsMsg := ⟨"schedtask", SchedPayload.descriptor item.payload⟩
      let r := remote item.agent_id nats_data
      let debugLog : LogEntry := ⟨LogLevel.debug, payloadText item.payload⟩
      let sent : List SentMsg := [⟨item.agent_id, nats_data, 10⟩]
      if r ≠ "ok" then
        let newStatus :=
          if item.action = "create" then TaskSyncStatus.initial
          else TaskSyncStatus.notSynced
        let errLog : LogEntry :=
          ⟨LogLevel.error,
            "Unable to " ++ item.action ++ " scheduled task " ++ task.name ++
              " on " ++ item.hostname ++ ": " ++ r⟩
        if saveFails then
          ⟨st1, sent, [debugLog, errLog], some DispatchErr.databaseError⟩
        else
          ⟨saveSyncStatus st1 item.agent_obj item.task_id newStatus,
            sent, [debugLog, errLog], none⟩
      else
        let okLog : LogEntry :=
          ⟨LogLevel.info,
            item.hostname ++ " task " ++ task.name ++ " was " ++
              (if item.action = "create" then "created" else "modified")⟩
        if saveFails then
          ⟨st1, sent, [debugLog, okLog], some DispatchErr.databaseError⟩
        else
          ⟨saveSyncStatus st1 item.agent_obj item.task_id TaskSyncStatus.synced,
            sent, [debugLog, okLog], none⟩
    else
      let nats_data : NatsMsg := ⟨"delschedtask", SchedPayload.nameOnly task.win_task_name⟩
      let r := remote item.agent_id nats_data
      let sent : List SentMsg := [⟨item.agent_id, nats_data, 10⟩]
      if r ≠ "ok" ∧ pyIn "The system cannot find the file specified" r = false then
        let st2 :=
          if saveFails then st1
          else saveSyncStatus st1 item.agent_obj item.task_id TaskSyncStatus.pendingDeletion
        let errLog : LogEntry :=
          ⟨LogLevel.error,
            "Unable to " ++ item.action ++ " scheduled task " ++ task.name ++
              " on " ++ item.hostname ++ ": " ++ r⟩
        ⟨st2, sent, [errLog], none⟩
      else
        let okLog : LogEntry :=
          ⟨LogLevel.info, item.hostname ++ " task " ++ task.name ++ " was deleted."⟩
        ⟨deleteTask st1 item.task_id, sent, [okLog], none⟩

/-- The coroutine `_handle_task_on_agent` (lines 240-301): fetch the
AutomatedTask by id (`aget`, raising DoesNotExist when the row is gone),
then run the body on it. -/
def handle_task_on_agent (remote : String → NatsMsg → String) (saveFails : Bool)
    (st : Store) (item : DispatchItem) : HandlerResult :=
  match st.tasks.find? (fun t => t.id = item.task_id) with
  | none => ⟨st, [], [], some DispatchErr.taskDoesNotExist⟩
  | some task => handle_task_body remote saveFails st item task

/-- The `asyncio.gather` over the handler coroutines inside `_run`, run on
the single-threaded cooperative scheduler, modelled as the deterministic
in-order schedule. `gather` is called with the default
`return_exceptions=False`: the first exception propagates to the awaiting
`_run` coroutine and `asyncio.run` then tears the loop down, so items not
yet completed in this schedule are not processed. -/
def dispatch_all (remote : String → NatsMsg → String) (saveFails : Bool) :
    Store → List DispatchItem → HandlerResult
  | st, [] => ⟨st, [], [], none⟩
  | st, item :: rest =>
    let h := handle_task_on_agent remote saveFails st item
    match h.err with
    | some e => ⟨h.store, h.sent, h.logs, some e⟩
    | none =>
      let hs := dispatch_all remote saveFails h.store rest
      ⟨hs.store, h.sent ++ hs.sent, h.logs ++ hs.logs, hs.err⟩

/-! ## Cycle driver (`_run` and the body of `sync_scheduled_tasks`) -/

/-- Environment of one invocation: whether the redis lock was acquired,
the owner id `self.app.oid`, the outcome of `nats.connect` (`some e` means
it raised an exception whose `str` is `e`), the transport behaviour and the
database write behaviour. -/
structure CycleEnv where
  acquired : Bool
  oid : String
  connectErr : Option String
  remote : String → NatsMsg → String
  saveFails : Bool

/-- Result of the coroutine `_run` (lines 303-317): the value it returns
(`some e` on connect failure, `none` on the normal path, which returns
nothing), plus the observable effects. -/
structure RunResult where
  ret : Option String
  store : Store
  sent : List SentMsg
  logs : List LogEntry
  err : Option DispatchErr

/-- The coroutine `_run`: connect to NATS (on failure log the error string
and return it, dispatching nothing), else gather the handlers over the
planned actions, flush and close. -/
def run (env : CycleEnv) (st : Store) (items : List DispatchItem) : RunResult :=
  match env.connectErr with
  | some e => ⟨some e, st, [], [⟨LogLevel.error, e⟩], none⟩
  | none =>
    let d := dispatch_all env.remote env.saveFails st items
    ⟨none, d.store, d.sent, d.logs, d.err⟩

/-- Synchronous result of one invocation of the celery task: the string it
returns (`none` when an exception escaped `asyncio.run` instead), plus the
observable effects. -/
structure CycleOutcome where
  ret : Option String
  store : Store
  sent : List SentMsg
  logs : List LogEntry

/-- The celery task `sync_scheduled_tasks` (lines 170-319): under the redis
lock, on failed acquisition return "(oid) still running" at once; otherwise
build the plan, execute `asyncio.run(_run())` — whose return value is
discarded — and return "ok". An exception escaping the gather propagates
out of `asyncio.run`, so no string is returned in that case. -/
def sync_scheduled_tasks (env : CycleEnv) (st : Store) (fleet : List AgentView) :
    CycleOutcome :=
  if env.acquired = false then
    ⟨some (env.oid ++ " still running"), st, [], []⟩
  else
    let items := sync_plan fleet
    let r := run env st items
    match r.err with
    | some _ => ⟨none, r.store, r.sent, r.logs⟩
    | none => ⟨some "ok", r.store, r.sent, r.logs⟩

/-! ## Concrete sample data for witness instantiations -/

/-- Sample non-POSIX online agent at version 2.6.0. -/
def agentW : Agent := ⟨"agent-1", "host-1", "2.6.0", AgentStatus.online, false⟩

/-- Sample agent whose version compares semantically above 1.6.0 although
it compares lexically below it. -/
def agentV110 : Agent := ⟨"agent-2", "host-2", "1.10.0", AgentStatus.online, false⟩

/-- Sample ordinary task. -/
def taskW : AutomatedTask :=
  ⟨1, "taskA", TaskType.ordinary, "trmm-task-1", "descriptor-v1"⟩

/-- Sample fleet in which the only (agent, task) pair is already SYNCED. -/
def fleetSyncedW : List AgentView :=
  [⟨agentW,
    [⟨taskW, false, "agent-1", TaskResultField.val ⟨"agent-1", 1, TaskSyncStatus.synced⟩⟩]⟩]

/-- Sample environment: lock acquired, transport connected, every remote
call acknowledged "ok", database writes succeed. -/
def envOkW : CycleEnv := ⟨true, "worker1", none, fun _ _ => "ok", false⟩

/-- Sample store holding the sample task, a TaskResult for it and the
sample agent. -/
def storeW : Store := ⟨[taskW], [⟨"agent-1", 1, TaskSyncStatus.synced⟩], [agentW]⟩

/-- Sample create item for the sample task on the sample agent, as the
planner produces it. -/
def itemCreateW : DispatchItem :=
  ⟨"create", 1, "agent-1", some "descriptor-v1", "agent-1", "host-1"⟩

/-- Sample delete item for the sample task on the sample agent. -/
def itemDeleteW : DispatchItem :=
  ⟨"delete", 1, "agent-1", none, "agent-1", "host-1"⟩

/-- Sample agent below the 2.6.0 onboarding capability gate. -/
def agentV259 : Agent := ⟨"agent-3", "host-3", "2.5.9", AgentStatus.online, false⟩

/-- Sample onboarding task. -/
def taskOnbW : AutomatedTask :=
  ⟨2, "onboardA", TaskType.onboarding, "trmm-task-2", "descriptor-onb"⟩

/-- Sample fleet holding only the 1.10.0 agent with the sample task,
unsynced. -/
def fleetV110W : List AgentView :=
  [⟨agentV110, [⟨taskW, false, "agent-2", TaskResultField.noneF⟩]⟩]

/-- The create item the planner produces from `fleetV110W`. -/
def itemV110W : DispatchItem :=
  ⟨"create", 1, "agent-2", some "descriptor-v1", "agent-2", "host-2"⟩

/-! ## Helper lemmas -/

/-- A sync-status-only update commutes with the keyed lookup: the lookup
finds the same row with its sync_status replaced. -/
theorem find_after_save (trs : List TaskResult) (aid : String) (tid : Nat)
    (s : TaskSyncStatus) :
    (trs.map fun tr =>
        if tr.agent_id = aid ∧ tr.task_id = tid then { tr with sync_status := s } else tr).find?
        (fun tr => decide (tr.agent_id = aid ∧ tr.task_id = tid)) =
      (trs.find? (fun tr => decide (tr.agent_id = aid ∧ tr.task_id = tid))).map
        (fun tr => { tr with sync_status := s }) := by
  induction trs with
  | nil => rfl
  | cons hd tl ih =>
    rw [List.map_cons]
    by_cases hk : hd.agent_id = aid ∧ hd.task_id = tid
    · rw [if_pos hk]
      simp [List.find?_cons, hk.1, hk.2]
    · rw [if_neg hk,
        List.find?_cons_of_neg (p := fun (tr : TaskResult) => decide (tr.agent_id = aid ∧ tr.task_id = tid))
          _ (fun h => hk (of_decide_eq_true h)),
        List.find?_cons_of_neg (p := fun (tr : TaskResult) => decide (tr.agent_id = aid ∧ tr.task_id = tid))
          _ (fun h => hk (of_decide_eq_true h))]
      exact ih

/-- saveSyncStatus only rewrites the taskresults list. -/
theorem saveSyncStatus_taskresults (st : Store) (aid : String) (tid : Nat)
    (s : TaskSyncStatus) :
    (saveSyncStatus st aid tid s).taskresults =
      st.taskresults.map fun tr =>
        if tr.agent_id = aid ∧ tr.task_id = tid then { tr with sync_status := s } else tr :=
  rfl

/-- The lookup after the keyed sync-status write. -/
theorem findTR_save (st : Store) (aid : String) (tid : Nat) (s : TaskSyncStatus) :
    findTR (saveSyncStatus st aid tid s).taskresults aid tid =
      (findTR st.taskresults aid tid).map (fun tr => { tr with sync_status := s }) := by
  simp only [findTR, saveSyncStatus_taskresults]
  exact find_after_save st.taskresults aid tid s

/-- The fetch-or-create leaves the Task and Agent rows alone. -/
theorem ensure_frame (st : Store) (aid : String) (tid : Nat) :
    (ensureTaskResult st aid tid).1.tasks = st.tasks ∧
      (ensureTaskResult st aid tid).1.agents = st.agents := by
  unfold ensureTaskResult
  cases findTR st.taskresults aid tid <;> exact ⟨rfl, rfl⟩

/-- After the fetch-or-create, the keyed lookup finds the row the handler
holds. -/
theorem findTR_ensure (st : Store) (aid : String) (tid : Nat) :
    findTR (ensureTaskResult st aid tid).1.taskresults aid tid =
      some (ensureTaskResult st aid tid).2 := by
  unfold ensureTaskResult
  cases hf : findTR st.taskresults aid tid with
  | some tr => simpa using hf
  | none =>
    simp only [findTR] at hf ⊢
    rw [List.find?_append, hf]
    simp

/-- The row the fetch-or-create hands to the handler carries the requested
keys. -/
theorem ensure_key (st : Store) (aid : String) (tid : Nat) :
    (ensureTaskResult st aid tid).2.agent_id = aid ∧
      (ensureTaskResult st aid tid).2.task_id = tid := by
  unfold ensureTaskResult
  cases hf : findTR st.taskresults aid tid with
  | some tr =>
    have := List.find?_some hf
    simp only [decide_eq_true_eq] at this
    simpa using this
  | none => exact ⟨rfl, rfl⟩

/-- If the fetch-or-create was a pure fetch, the store is unchanged. -/
theorem ensure_of_found (st : Store) (aid : String) (tid : Nat) (tr : TaskResult)
    (h : findTR st.taskresults aid tid = some tr) :
    ensureTaskResult st aid tid = (st, tr) := by
  unfold ensureTaskResult
  rw [h]

/-- On a successful task fetch the handler runs the body on the fetched
task. -/
theorem handle_of_found (remote : String → NatsMsg → String) (saveFails : Bool)
    (st : Store) (item : DispatchItem) (task : AutomatedTask)
    (htask : st.tasks.find? (fun t => t.id = item.task_id) = some task) :
    handle_task_on_agent remote saveFails st item =
      handle_task_body remote saveFails st item task := by
  unfold handle_task_on_agent
  rw [htask]

/-- A pair whose TaskResult is already SYNCED contributes nothing to the
plan. -/
theorem action_for_task_of_synced (agent : Agent) (t : TaskWithPolicy)
    (h : t.task_result.hasStatus TaskSyncStatus.synced = true) :
    action_for_task agent t = [] := by
  cases htr : t.task_result with
  | noneF => rw [htr] at h; exact absurd h (by simp [TaskResultField.hasStatus])
  | emptyDict => rw [htr] at h; exact absurd h (by simp [TaskResultField.hasStatus])
  | val tr =>
    rw [htr] at h
    have hs : tr.sync_status = TaskSyncStatus.synced := by
      simpa [TaskResultField.hasStatus] using h
    by_cases hskip : t.task.task_type = TaskType.onboarding ∧ pyverLT agent.version "2.6.0" = true
    · simp [action_for_task, hskip]
    · simp [action_for_task, hskip, htr, TaskResultField.truthy, TaskResultField.hasStatus, hs]

/-! ## Claim theorems -/

/-- C1: for every eligible (agent, task) pair enumerated by the planner the
planned operation is a function of the sync status alone — no TaskResult or
INITIAL gives a create item, PENDING_DELETION a delete item, NOT_SYNCED a
modify item, SYNCED no item — and a cycle in which every pair is SYNCED
issues zero remote calls. -/
theorem C1_plan_function_of_sync_status :
    (∀ (agent : Agent) (t : TaskWithPolicy),
      ¬(t.task.task_type = TaskType.onboarding ∧ pyverLT agent.version "2.6.0" = true) →
      (action_for_task agent t).map (fun i => i.action) =
        (match t.task_result with
         | TaskResultField.noneF => ["create"]
         | TaskResultField.emptyDict => ["create"]
         | TaskResultField.val tr =>
           match tr.sync_status with
           | TaskSyncStatus.initial => ["create"]
           | TaskSyncStatus.pendingDeletion => ["delete"]
           | TaskSyncStatus.notSynced => ["modify"]
           | TaskSyncStatus.synced => [])) ∧
    (∀ (env : CycleEnv) (st : Store) (fleet : List AgentView),
      (∀ av ∈ fleet, ∀ t ∈ av.tasks_with_policies,
        t.task_result.hasStatus TaskSyncStatus.synced = true) →
      sync_plan fleet = [] ∧ (sync_scheduled_tasks env st fleet).sent = []) := by
  constructor
  · intro agent t hskip
    cases htr : t.task_result with
    | noneF => simp [action_for_task, hskip, htr, TaskResultField.truthy]
    | emptyDict => simp [action_for_task, hskip, htr, TaskResultField.truthy]
    | val tr =>
      cases hs : tr.sync_status <;>
        simp [action_for_task, hskip, htr, TaskResultField.truthy,
          TaskResultField.hasStatus, hs]
  · intro env st fleet hall
    have hplan : sync_plan fleet = [] := by
      unfold sync_plan
      rw [List.flatMap_eq_nil_iff]
      intro av hav
      by_cases he : agentEligible av.agent = true
      · rw [if_pos he, List.flatMap_eq_nil_iff]
        intro t ht
        exact action_for_task_of_synced av.agent t (hall av hav t ht)
      · rw [if_neg he]
    refine ⟨hplan, ?_⟩
    unfold sync_scheduled_tasks
    cases hacq : env.acquired with
    | false => simp
    | true =>
      rw [if_neg (by simp [hacq])]
      rw [hplan]
      cases hc : env.connectErr with
      | some e => simp [run, hc]
      | none => simp [run, hc, dispatch_all]

/-- C6: when the cluster-wide cycle lock is not acquired, the invocation
returns "(owner) still running" at once, with the store untouched, no
remote calls and no log output, independent of the fleet it would have
planned over. -/
theorem C6_lock_contention (env : CycleEnv) (st : Store) (fleet : List AgentView)
    (h : env.acquired = false) :
    sync_scheduled_tasks env st fleet =
      ⟨some (env.oid ++ " still running"), st, [], []⟩ := by
  unfold sync_scheduled_tasks
  rw [if_pos h]

/-- C6 witness: a concrete contended invocation returns the string and
leaves everything untouched. -/
theorem C6_lock_contention_witness :
    ({ acquired := false, oid := "worker1", connectErr := none,
       remote := fun _ _ => "ok", saveFails := false } : CycleEnv).acquired = false ∧
    sync_scheduled_tasks
        { acquired := false, oid := "worker1", connectErr := none,
          remote := fun _ _ => "ok", saveFails := false }
        ⟨[], [], []⟩ [] =
      ⟨some ("worker1" ++ " still running"), ⟨[], [], []⟩, [], []⟩ :=
  ⟨rfl,
    C6_lock_contention
      { acquired := false, oid := "worker1", connectErr := none,
        remote := fun _ _ => "ok", saveFails := false }
      ⟨[], [], []⟩ [] rfl⟩

/-- C7: the claim says a transport-connect failure makes the invocation
return the connect error message; in the code the inner coroutine `_run`
does return that message, but `asyncio.run(_run())` discards it and the
task returns "ok" — evaluated here on a concrete connect failure. -/
theorem C7_connect_failure_returns_ok :
    (sync_scheduled_tasks
        { acquired := true, oid := "worker1",
          connectErr := some "nats: no servers available",
          remote := fun _ _ => "ok", saveFails := false }
        ⟨[], [], []⟩ []).ret = some "ok" ∧
    (run
        { acquired := true, oid := "worker1",
          connectErr := some "nats: no servers available",
          remote := fun _ _ => "ok", saveFails := false }
        ⟨[], [], []⟩ (sync_plan [])).ret = some "nats: no servers available" ∧
    (sync_scheduled_tasks
        { acquired := true, oid := "worker1",
          connectErr := some "nats: no servers available",
          remote := fun _ _ => "ok", saveFails := false }
        ⟨[], [], []⟩ []).sent = [] :=
  ⟨rfl, rfl, rfl⟩

/-- C1 witness: concrete instantiation of both parts — an ordinary task
with no TaskResult plans a create, and a fleet whose only pair is SYNCED
yields an empty plan and a cycle with zero remote calls. -/
theorem C1_plan_function_of_sync_status_witness :
    (¬((⟨taskW, false, "agent-1", TaskResultField.noneF⟩ : TaskWithPolicy).task.task_type =
          TaskType.onboarding ∧ pyverLT agentW.version "2.6.0" = true)) ∧
    (action_for_task agentW ⟨taskW, false, "agent-1", TaskResultField.noneF⟩).map
        (fun i => i.action) = ["create"] ∧
    (∀ av ∈ fleetSyncedW, ∀ t ∈ av.tasks_with_policies,
      t.task_result.hasStatus TaskSyncStatus.synced = true) ∧
    sync_plan fleetSyncedW = [] ∧
    (sync_scheduled_tasks envOkW storeW fleetSyncedW).sent = [] :=
  ⟨by decide,
    C1_plan_function_of_sync_status.1 agentW
      ⟨taskW, false, "agent-1", TaskResultField.noneF⟩ (by decide),
    by decide,
    (C1_plan_function_of_sync_status.2 envOkW storeW fleetSyncedW (by decide)).1,
    (C1_plan_function_of_sync_status.2 envOkW storeW fleetSyncedW (by decide)).2⟩

/-- C2: for a create or modify item whose task fetch succeeds and whose
status write goes through, a remote response of exactly "ok" persists
SYNCED; any other response (a timeout included, which the transport
surfaces as a non-"ok" response) persists INITIAL for create and
NOT_SYNCED for modify, logs the failure at error level, and no exception
escapes the handler. -/
theorem C2_create_modify_outcome (remote : String → NatsMsg → String) (st : Store)
    (item : DispatchItem) (task : AutomatedTask)
    (htask : st.tasks.find? (fun t => t.id = item.task_id) = some task)
    (hact : item.action = "create" ∨ item.action = "modify") :
    (handle_task_on_agent remote false st item).err = none ∧
    (remote item.agent_id ⟨"schedtask", SchedPayload.descriptor item.payload⟩ = "ok" →
      findTR (handle_task_on_agent remote false st item).store.taskresults
          item.agent_obj item.task_id =
        some ⟨item.agent_obj, item.task_id, TaskSyncStatus.synced⟩) ∧
    (remote item.agent_id ⟨"schedtask", SchedPayload.descriptor item.payload⟩ ≠ "ok" →
      findTR (handle_task_on_agent remote false st item).store.taskresults
          item.agent_obj item.task_id =
        some ⟨item.agent_obj, item.task_id,
          if item.action = "create" then TaskSyncStatus.initial
          else TaskSyncStatus.notSynced⟩ ∧
      (⟨LogLevel.error,
        "Unable to " ++ item.action ++ " scheduled task " ++ task.name ++ " on " ++
          item.hostname ++ ": " ++
          remote item.agent_id ⟨"schedtask", SchedPayload.descriptor item.payload⟩⟩ :
        LogEntry) ∈ (handle_task_on_agent remote false st item).logs) := by
  rw [handle_of_found remote false st item task htask]
  have hk := ensure_key st item.agent_obj item.task_id
  by_cases hr :
      remote item.agent_id ⟨"schedtask", SchedPayload.descriptor item.payload⟩ = "ok"
  · refine ⟨?_, fun _ => ?_, fun hne => absurd hr hne⟩
    · simp [handle_task_body, hact, hr]
    · simp only [handle_task_body]
      rw [if_pos hact, if_neg (not_not_intro hr)]
      simp only [Bool.false_eq_true, if_false]
      rw [findTR_save, findTR_ensure]
      simp [hk.1, hk.2]
  · refine ⟨?_, fun heq => absurd heq hr, fun _ => ⟨?_, ?_⟩⟩
    · simp [handle_task_body, hact, hr]
    · simp only [handle_task_body]
      rw [if_pos hact, if_pos hr]
      simp only [Bool.false_eq_true, if_false]
      rw [findTR_save, findTR_ensure]
      simp [hk.1, hk.2]
    · simp [handle_task_body, hact, hr]

/-- C2 witness: the sample create item with no pre-existing TaskResult and
a remote answering "permission denied" ends the cycle with the pair still
INITIAL, the failure logged, and no exception. -/
theorem C2_create_modify_outcome_witness :
    storeW.tasks.find? (fun t => t.id = itemCreateW.task_id) = some taskW ∧
    (itemCreateW.action = "create" ∨ itemCreateW.action = "modify") ∧
    (handle_task_on_agent (fun _ _ => "permission denied") false storeW itemCreateW).err =
      none ∧
    findTR (handle_task_on_agent (fun _ _ => "permission denied") false storeW
        itemCreateW).store.taskresults itemCreateW.agent_obj itemCreateW.task_id =
      some ⟨itemCreateW.agent_obj, itemCreateW.task_id,
        if itemCreateW.action = "create" then TaskSyncStatus.initial
        else TaskSyncStatus.notSynced⟩ :=
  ⟨by decide, Or.inl rfl,
    (C2_create_modify_outcome (fun _ _ => "permission denied") storeW itemCreateW taskW
      (by decide) (Or.inl rfl)).1,
    ((C2_create_modify_outcome (fun _ _ => "permission denied") storeW itemCreateW taskW
      (by decide) (Or.inl rfl)).2.2 (by decide)).1⟩

/-- C3: a dispatch item exists only for an agent that is online, non-POSIX
and at semantic version at least 1.6.0; an onboarding task on an agent
below 2.6.0 is always skipped; and the version comparison is semantic, not
lexical — version "1.10.0" passes the 1.6.0 gate although it orders below
"1.6.0" as a string. -/
theorem C3_eligibility_gating :
    (∀ (fleet : List AgentView) (item : DispatchItem),
      item ∈ sync_plan fleet →
      ∃ av ∈ fleet,
        av.agent.status = AgentStatus.online ∧
        av.agent.is_posix = false ∧
        pyverGE av.agent.version "1.6.0" = true ∧
        item ∈ av.tasks_with_policies.flatMap (action_for_task av.agent)) ∧
    (∀ (agent : Agent) (t : TaskWithPolicy),
      t.task.task_type = TaskType.onboarding →
      pyverLT agent.version "2.6.0" = true →
      action_for_task agent t = []) ∧
    (pyverGE agentV110.version "1.6.0" = true ∧
      strLexLt agentV110.version "1.6.0" = true) := by
  refine ⟨?_, ?_, by decide, by decide⟩
  · intro fleet item hmem
    unfold sync_plan at hmem
    rw [List.mem_flatMap] at hmem
    obtain ⟨av, hav, hin⟩ := hmem
    by_cases he : agentEligible av.agent = true
    · rw [if_pos he] at hin
      have hprops : av.agent.is_posix = false ∧ pyverGE av.agent.version "1.6.0" = true ∧
          av.agent.status = AgentStatus.online := by
        simpa [agentEligible] using he
      exact ⟨av, hav, hprops.2.2, hprops.1, hprops.2.1, hin⟩
    · rw [if_neg he] at hin
      exact absurd hin (List.not_mem_nil item)
  · intro agent t h1 h2
    simp only [action_for_task]
    rw [if_pos ⟨h1, h2⟩]

/-- C3 witness: the 1.10.0 agent's create item is in the plan and the
eligibility facts hold of it; the onboarding task on the 2.5.9 agent
contributes no item. -/
theorem C3_eligibility_gating_witness :
    itemV110W ∈ sync_plan fleetV110W ∧
    (∃ av ∈ fleetV110W,
      av.agent.status = AgentStatus.online ∧
      av.agent.is_posix = false ∧
      pyverGE av.agent.version "1.6.0" = true ∧
      itemV110W ∈ av.tasks_with_policies.flatMap (action_for_task av.agent)) ∧
    (taskOnbW.task_type = TaskType.onboarding ∧ pyverLT agentV259.version "2.6.0" = true) ∧
    action_for_task agentV259 ⟨taskOnbW, false, "agent-3", TaskResultField.noneF⟩ = [] :=
  ⟨by decide,
    C3_eligibility_gating.1 fleetV110W itemV110W (by decide),
    ⟨rfl, by decide⟩,
    C3_eligibility_gating.2.1 agentV259 ⟨taskOnbW, false, "agent-3", TaskResultField.noneF⟩
      rfl (by decide)⟩

/-- C4 counterexample: a delete response containing the claimed substring
"cannot find the file specified" but not the "The system cannot find the
file specified" string the code matches is NOT treated as success — the
Task row survives and the pair is parked in PENDING_DELETION, contradicting
the claim that both records are removed. -/
theorem C4_counterexample :
    pyIn "cannot find the file specified" "Error: cannot find the file specified" = true ∧
    (handle_task_on_agent (fun _ _ => "Error: cannot find the file specified") false
        storeW itemDeleteW).store.tasks = [taskW] ∧
    findTR (handle_task_on_agent (fun _ _ => "Error: cannot find the file specified") false
        storeW itemDeleteW).store.taskresults "agent-1" 1 =
      some ⟨"agent-1", 1, TaskSyncStatus.pendingDeletion⟩ := by
  decide

/-- C4 (amended): for a delete item, a response of exactly "ok" or one
containing the substring "The system cannot find the file specified" is
treated as success, after which no Task row and no TaskResult row with the
item's task id remains, and no exception escapes. -/
theorem C4_delete_success (remote : String → NatsMsg → String) (saveFails : Bool)
    (st : Store) (item : DispatchItem) (task : AutomatedTask)
    (htask : st.tasks.find? (fun t => t.id = item.task_id) = some task)
    (hdel : item.action = "delete")
    (hok : remote item.agent_id ⟨"delschedtask", SchedPayload.nameOnly task.win_task_name⟩ =
        "ok" ∨
      pyIn "The system cannot find the file specified"
        (remote item.agent_id ⟨"delschedtask", SchedPayload.nameOnly task.win_task_name⟩) =
        true) :
    (handle_task_on_agent remote saveFails st item).err = none ∧
    (∀ t ∈ (handle_task_on_agent remote saveFails st item).store.tasks,
      t.id ≠ item.task_id) ∧
    (∀ tr ∈ (handle_task_on_agent remote saveFails st item).store.taskresults,
      tr.task_id ≠ item.task_id) := by
  rw [handle_of_found remote saveFails st item task htask]
  have hnotcm : ¬(item.action = "create" ∨ item.action = "modify") := by
    rw [hdel]; decide
  have hcond :
      ¬(remote item.agent_id ⟨"delschedtask", SchedPayload.nameOnly task.win_task_name⟩ ≠
          "ok" ∧
        pyIn "The system cannot find the file specified"
          (remote item.agent_id ⟨"delschedtask", SchedPayload.nameOnly task.win_task_name⟩) =
          false) := by
    rcases hok with h | h
    · exact fun hc => hc.1 h
    · intro hc
      rw [h] at hc
      exact absurd hc.2 (by decide)
  simp only [handle_task_body]
  rw [if_neg hnotcm, if_neg hcond]
  refine ⟨rfl, ?_, ?_⟩
  · intro t ht
    simp only [deleteTask] at ht
    have := List.mem_filter.mp ht
    simpa using this.2
  · intro tr htr
    simp only [deleteTask] at htr
    have := List.mem_filter.mp htr
    simpa using this.2

/-- C4 witness: the sample delete item with a "The system cannot find the
file specified" response removes both the Task and its TaskResult. -/
theorem C4_delete_success_witness :
    storeW.tasks.find? (fun t => t.id = itemDeleteW.task_id) = some taskW ∧
    itemDeleteW.action = "delete" ∧
    pyIn "The system cannot find the file specified"
      "Error: The system cannot find the file specified" = true ∧
    (∀ t ∈ (handle_task_on_agent
        (fun _ _ => "Error: The system cannot find the file specified") false storeW
        itemDeleteW).store.tasks, t.id ≠ itemDeleteW.task_id) ∧
    (∀ tr ∈ (handle_task_on_agent
        (fun _ _ => "Error: The system cannot find the file specified") false storeW
        itemDeleteW).store.taskresults, tr.task_id ≠ itemDeleteW.task_id) :=
  ⟨by decide, rfl, by decide,
    (C4_delete_success (fun _ _ => "Error: The system cannot find the file specified")
      false storeW itemDeleteW taskW (by decide) rfl (Or.inr (by decide))).2.1,
    (C4_delete_success (fun _ _ => "Error: The system cannot find the file specified")
      false storeW itemDeleteW taskW (by decide) rfl (Or.inr (by decide))).2.2⟩

/-- C5: for a delete item whose remote call fails for any reason other than
task-not-found, no exception escapes (a DatabaseError from the status write
included), the Task row is not deleted, and when the status write succeeds
the pair is persisted as PENDING_DELETION. -/
theorem C5_delete_failure (remote : String → NatsMsg → String) (saveFails : Bool)
    (st : Store) (item : DispatchItem) (task : AutomatedTask)
    (htask : st.tasks.find? (fun t => t.id = item.task_id) = some task)
    (hdel : item.action = "delete")
    (hfail : remote item.agent_id ⟨"delschedtask", SchedPayload.nameOnly task.win_task_name⟩ ≠
        "ok" ∧
      pyIn "The system cannot find the file specified"
        (remote item.agent_id ⟨"delschedtask", SchedPayload.nameOnly task.win_task_name⟩) =
        false) :
    (handle_task_on_agent remote saveFails st item).err = none ∧
    (handle_task_on_agent remote saveFails st item).store.tasks = st.tasks ∧
    (saveFails = false →
      findTR (handle_task_on_agent remote saveFails st item).store.taskresults
          item.agent_obj item.task_id =
        some ⟨item.agent_obj, item.task_id, TaskSyncStatus.pendingDeletion⟩) := by
  rw [handle_of_found remote saveFails st item task htask]
  have hnotcm : ¬(item.action = "create" ∨ item.action = "modify") := by
    rw [hdel]; decide
  simp only [handle_task_body]
  rw [if_neg hnotcm, if_pos hfail]
  refine ⟨rfl, ?_, ?_⟩
  · cases saveFails <;>
      simp [saveSyncStatus, (ensure_frame st item.agent_obj item.task_id).1]
  · intro hsf
    subst hsf
    simp only [Bool.false_eq_true, if_false]
    rw [findTR_save, findTR_ensure]
    have hk := ensure_key st item.agent_obj item.task_id
    simp [hk.1, hk.2]

/-- C5 witness: a "permission denied" delete response leaves the Task in
place and parks the pair in PENDING_DELETION when the write succeeds, and
still raises nothing when the write fails. -/
theorem C5_delete_failure_witness :
    storeW.tasks.find? (fun t => t.id = itemDeleteW.task_id) = some taskW ∧
    itemDeleteW.action = "delete" ∧
    ((fun (_ : String) (_ : NatsMsg) => "permission denied") itemDeleteW.agent_id
        ⟨"delschedtask", SchedPayload.nameOnly taskW.win_task_name⟩ ≠ "ok" ∧
      pyIn "The system cannot find the file specified" "permission denied" = false) ∧
    (handle_task_on_agent (fun _ _ => "permission denied") false storeW itemDeleteW).err =
      none ∧
    (handle_task_on_agent (fun _ _ => "permission denied") true storeW itemDeleteW).err =
      none ∧
    (handle_task_on_agent (fun _ _ => "permission denied") true storeW
        itemDeleteW).store.tasks = storeW.tasks ∧
    findTR (handle_task_on_agent (fun _ _ => "permission denied") false storeW
        itemDeleteW).store.taskresults itemDeleteW.agent_obj itemDeleteW.task_id =
      some ⟨itemDeleteW.agent_obj, itemDeleteW.task_id, TaskSyncStatus.pendingDeletion⟩ :=
  ⟨by decide, rfl, ⟨by decide, by decide⟩,
    (C5_delete_failure (fun _ _ => "permission denied") false storeW itemDeleteW taskW
      (by decide) rfl ⟨by decide, by decide⟩).1,
    (C5_delete_failure (fun _ _ => "permission denied") true storeW itemDeleteW taskW
      (by decide) rfl ⟨by decide, by decide⟩).1,
    (C5_delete_failure (fun _ _ => "permission denied") true storeW itemDeleteW taskW
      (by decide) rfl ⟨by decide, by decide⟩).2.1,
    (C5_delete_failure (fun _ _ => "permission denied") false storeW itemDeleteW taskW
      (by decide) rfl ⟨by decide, by decide⟩).2.2 rfl⟩

/-- C8 counterexample: the planner captures the descriptor when it builds
the plan. Planning while the task generates "descriptor-v1" yields an item
carrying "descriptor-v1"; dispatching that item against a store in which
the task definition now generates "descriptor-v2" still sends
"descriptor-v1" — not the descriptor of the then-current definition — so
the claim that the payload is generated fresh at dispatch time is false. -/
theorem C8_counterexample :
    sync_plan [⟨agentW, [⟨taskW, false, "agent-1", TaskResultField.noneF⟩]⟩] =
      [itemCreateW] ∧
    ({ taskW with payloadDef := "descriptor-v2" } : AutomatedTask).generate_nats_task_payload =
      "descriptor-v2" ∧
    (handle_task_on_agent (fun _ _ => "ok") false
        ⟨[{ taskW with payloadDef := "descriptor-v2" }], [], [agentW]⟩ itemCreateW).sent =
      [⟨"agent-1", ⟨"schedtask", SchedPayload.descriptor (some "descriptor-v1")⟩, 10⟩] ∧
    some "descriptor-v1" ≠ some "descriptor-v2" := by
  decide

/-- C8 (amended): the descriptor of a create or modify item is generated
at planning time from the Task definition current at planning, and the
dispatcher sends exactly the payload the item carries, whatever the store
holds at dispatch time — edits between planning and dispatch are not
reflected in the message sent. -/
theorem C8_payload_captured_at_planning :
    (∀ (agent : Agent) (t : TaskWithPolicy) (item : DispatchItem),
      item ∈ action_for_task agent t →
      (item.action = "create" ∨ item.action = "modify") →
      item.payload = some t.task.generate_nats_task_payload) ∧
    (∀ (remote : String → NatsMsg → String) (saveFails : Bool) (st : Store)
        (item : DispatchItem) (task : AutomatedTask),
      st.tasks.find? (fun t => t.id = item.task_id) = some task →
      (item.action = "create" ∨ item.action = "modify") →
      (handle_task_on_agent remote saveFails st item).sent =
        [⟨item.agent_id, ⟨"schedtask", SchedPayload.descriptor item.payload⟩, 10⟩]) := by
  constructor
  · intro agent t item hmem hact
    simp only [action_for_task] at hmem
    split at hmem
    · exact absurd hmem (List.not_mem_nil item)
    · split at hmem
      · rw [List.mem_singleton] at hmem
        subst hmem
        rfl
      · split at hmem
        · rw [List.mem_singleton] at hmem
          subst hmem
          rcases hact with h | h <;> simp at h
        · split at hmem
          · rw [List.mem_singleton] at hmem
            subst hmem
            rfl
          · exact absurd hmem (List.not_mem_nil item)
  · intro remote saveFails st item task htask hact
    rw [handle_of_found remote saveFails st item task htask]
    simp only [handle_task_body]
    rw [if_pos hact]
    by_cases hr : remote item.agent_id ⟨"schedtask", SchedPayload.descriptor item.payload⟩ = "ok"
    · rw [if_neg (not_not_intro hr)]
      cases saveFails <;> rfl
    · rw [if_pos hr]
      cases saveFails <;> rfl

/-- C8 witness: the sample create item carries the planning-time
descriptor, and dispatching it sends that descriptor. -/
theorem C8_payload_captured_at_planning_witness :
    itemCreateW ∈
      action_for_task agentW ⟨taskW, false, "agent-1", TaskResultField.noneF⟩ ∧
    (itemCreateW.action = "create" ∨ itemCreateW.action = "modify") ∧
    itemCreateW.payload = some taskW.generate_nats_task_payload ∧
    (handle_task_on_agent (fun _ _ => "ok") false storeW itemCreateW).sent =
      [⟨itemCreateW.agent_id,
        ⟨"schedtask", SchedPayload.descriptor itemCreateW.payload⟩, 10⟩] :=
  ⟨by decide, Or.inl rfl,
    C8_payload_captured_at_planning.1 agentW
      ⟨taskW, false, "agent-1", TaskResultField.noneF⟩ itemCreateW (by decide)
      (Or.inl rfl),
    C8_payload_captured_at_planning.2 (fun _ _ => "ok") false storeW itemCreateW taskW
      (by decide) (Or.inl rfl)⟩

/-- C10: when a TaskResult for the pair already exists, dispatching a
create or modify item leaves the Agent rows and Task rows untouched and
rewrites the taskresults list only at that item's (agent, task) key, and
there only the sync_status field. -/
theorem C10_create_modify_frame (remote : String → NatsMsg → String) (st : Store)
    (item : DispatchItem) (task : AutomatedTask) (tr0 : TaskResult)
    (htask : st.tasks.find? (fun t => t.id = item.task_id) = some task)
    (hact : item.action = "create" ∨ item.action = "modify")
    (htr : findTR st.taskresults item.agent_obj item.task_id = some tr0) :
    (handle_task_on_agent remote false st item).store.agents = st.agents ∧
    (handle_task_on_agent remote false st item).store.tasks = st.tasks ∧
    ∃ s : TaskSyncStatus,
      (handle_task_on_agent remote false st item).store.taskresults =
        st.taskresults.map fun tr =>
          if tr.agent_id = item.agent_obj ∧ tr.task_id = item.task_id then
            { tr with sync_status := s }
          else tr := by
  rw [handle_of_found remote false st item task htask]
  simp only [handle_task_body]
  rw [if_pos hact, ensure_of_found st item.agent_obj item.task_id tr0 htr]
  by_cases hr : remote item.agent_id ⟨"schedtask", SchedPayload.descriptor item.payload⟩ = "ok"
  · rw [if_neg (not_not_intro hr)]
    simp only [Bool.false_eq_true, if_false]
    exact ⟨rfl, rfl, TaskSyncStatus.synced, rfl⟩
  · rw [if_pos hr]
    simp only [Bool.false_eq_true, if_false]
    exact ⟨rfl, rfl,
      if item.action = "create" then TaskSyncStatus.initial else TaskSyncStatus.notSynced,
      rfl⟩

/-- C10 witness: dispatching the sample create item against the sample
store (whose TaskResult row exists) only rewrites that row's sync_status. -/
theorem C10_create_modify_frame_witness :
    storeW.tasks.find? (fun t => t.id = itemCreateW.task_id) = some taskW ∧
    (itemCreateW.action = "create" ∨ itemCreateW.action = "modify") ∧
    findTR storeW.taskresults itemCreateW.agent_obj itemCreateW.task_id =
      some ⟨"agent-1", 1, TaskSyncStatus.synced⟩ ∧
    (handle_task_on_agent (fun _ _ => "ok") false storeW itemCreateW).store.agents =
      storeW.agents ∧
    (handle_task_on_agent (fun _ _ => "ok") false storeW itemCreateW).store.tasks =
      storeW.tasks ∧
    (∃ s : TaskSyncStatus,
      (handle_task_on_agent (fun _ _ => "ok") false storeW itemCreateW).store.taskresults =
        storeW.taskresults.map fun tr =>
          if tr.agent_id = itemCreateW.agent_obj ∧ tr.task_id = itemCreateW.task_id then
            { tr with sync_status := s }
          else tr) :=
  ⟨by decide, Or.inl rfl, by decide,
    (C10_create_modify_frame (fun _ _ => "ok") storeW itemCreateW taskW
      ⟨"agent-1", 1, TaskSyncStatus.synced⟩ (by decide) (Or.inl rfl) (by decide)).1,
    (C10_create_modify_frame (fun _ _ => "ok") storeW itemCreateW taskW
      ⟨"agent-1", 1, TaskSyncStatus.synced⟩ (by decide) (Or.inl rfl) (by decide)).2.1,
    (C10_create_modify_frame (fun _ _ => "ok") storeW itemCreateW taskW
      ⟨"agent-1", 1, TaskSyncStatus.synced⟩ (by decide) (Or.inl rfl) (by decide)).2.2⟩

/-- C9: the claim says an unhandled exception while processing one dispatch
item must not prevent the state transitions of the sibling items of the
same cycle. Evaluated on a two-item plan whose first item references a
missing task row: the DoesNotExist raised by the first handler propagates
through the gather (default return_exceptions=False) and the loop teardown
drops the second item — no remote call is issued for it and no status is
persisted — although dispatching that same item alone would persist
SYNCED. -/
theorem C9_exception_aborts_siblings :
    (dispatch_all (fun _ _ => "ok") false ⟨[taskW], [], [agentW]⟩
        [⟨"create", 99, "agent-1", some "descriptor-v1", "agent-1", "host-1"⟩,
          itemCreateW]).err = some DispatchErr.taskDoesNotExist ∧
    (dispatch_all (fun _ _ => "ok") false ⟨[taskW], [], [agentW]⟩
        [⟨"create", 99, "agent-1", some "descriptor-v1", "agent-1", "host-1"⟩,
          itemCreateW]).sent = [] ∧
    findTR (dispatch_all (fun _ _ => "ok") false ⟨[taskW], [], [agentW]⟩
        [⟨"create", 99, "agent-1", some "descriptor-v1", "agent-1", "host-1"⟩,
          itemCreateW]).store.taskresults "agent-1" 1 = none ∧
    findTR (handle_task_on_agent (fun _ _ => "ok") false ⟨[taskW], [], [agentW]⟩
        itemCreateW).store.taskresults "agent-1" 1 =
      some ⟨"agent-1", 1, TaskSyncStatus.synced⟩ := by
  decide

end TRMM
